import Mathlib

/-!
Shallow embedding of the data-fetch-and-normalize pipeline of the
`tpch-dashboard` demo application:

* `src/tpch-dashboard/src/components/Dashboard.tsx` — the six response
  normalizers (`processSalesOverTimeData`, `processSalesByRegionData`,
  `processCustomerSegmentsData`, `processOrderSizeData`,
  `processTopBrandsData`, `processOrderStatusData`) and the
  `loadDashboardData` refresh coordinator;
* `src/services/cubeApi.ts` — the `CubeApiService` remote query client
  (`isConfigured`, `query`);
* `src/static/tpch-dashboard/src/components/FilterBar.tsx` — the
  `updateFilters` change-detection logic.

JavaScript row values (`string | number | null`, plus `undefined` for an
absent property) are modelled by the inductive `JsValue`; JS numbers are
modelled as rationals (`ℚ`).  The JS builtin `parseFloat` is modelled by
`jsParseFloat` (finite decimal/exponent literals; `none` plays the role of
`NaN`).  Asynchronous React state is modelled by an explicit state record
and a step function per event (filter change / fetch settlement).
-/

namespace CubeWorkshop

/-- A JavaScript value as it occurs in a Cube data row
(`CubeDataRow: [key: string]: string | number | null`), together with
`undef` for the result of reading an absent property. JS numbers are
modelled as rationals. -/
inductive JsValue where
  | str (s : String)
  | num (q : ℚ)
  | null
  | undefined
deriving DecidableEq, Repr

/-- A data row: a JS object, i.e. a finite list of key/value properties
(keys unique by construction in JSON). -/
def Row : Type := List (String × JsValue)

instance : DecidableEq Row := by unfold Row; infer_instance

/-- `row[k]` — JS property read; an absent key yields `undefined`. -/
def Row.get (r : Row) (k : String) : JsValue :=
  match r.find? (fun kv => kv.1 = k) with
  | some kv => kv.2
  | none => .undefined

/-- Value of a digit string, most significant first. -/
def digitsVal (cs : List Char) : ℕ :=
  cs.foldl (fun n c => 10 * n + (c.toNat - 48)) 0

/-- The string-chewing phase of the JS builtin `parseFloat`: skip leading
whitespace, accept an optional sign, then the longest prefix that is a
decimal literal with optional fraction and exponent.  Returns the sign,
the integer digits, the fraction digits and the exponent, or `none` (the
model of `NaN`) when no numeric prefix exists. -/
def parseDecimal (s : String) : Option (Bool × List Char × List Char × ℤ) :=
  let cs := s.toList.dropWhile Char.isWhitespace
  let neg : Bool := match cs with
    | '-' :: _ => true
    | _ => false
  let cs := match cs with
    | '-' :: rest => rest
    | '+' :: rest => rest
    | _ => cs
  let ds₁ := cs.takeWhile Char.isDigit
  let cs₁ := cs.drop ds₁.length
  let ds₂ := match cs₁ with
    | '.' :: rest => rest.takeWhile Char.isDigit
    | _ => []
  let cs₂ := match cs₁ with
    | '.' :: rest => rest.drop ds₂.length
    | _ => cs₁
  if ds₁.isEmpty && ds₂.isEmpty then
    none
  else
    let exp : ℤ := match cs₂ with
      | 'e' :: rest | 'E' :: rest =>
        let (esgn, rest') : ℤ × List Char := match rest with
          | '-' :: r => (-1, r)
          | '+' :: r => (1, r)
          | _ => (1, rest)
        let eds := rest'.takeWhile Char.isDigit
        if eds.isEmpty then 0 else esgn * (digitsVal eds : ℤ)
      | _ => 0
    some (neg, ds₁, ds₂, exp)

/-- The numeric value of a parsed decimal literal. -/
def ratOfDecimal : Bool × List Char × List Char × ℤ → ℚ
  | (neg, ds₁, ds₂, e) =>
    (if neg then (-1 : ℚ) else 1) *
      ((digitsVal ds₁ : ℚ) + (digitsVal ds₂ : ℚ) / (10 ^ ds₂.length)) * (10 : ℚ) ^ e

/-- Model of the JS builtin `parseFloat` on strings; `none` plays the role
of `NaN`.  (`Infinity` inputs, which cannot be represented in `ℚ`, do not
occur in Cube responses and are not modelled.) -/
def jsParseFloat (s : String) : Option ℚ :=
  (parseDecimal s).map ratOfDecimal

/-- Model of `parseFloat(String(v))` (and of `parseFloat(v)` after a TS
`as string` cast, since `parseFloat` coerces its argument to a string):
a string is parsed with `jsParseFloat`; a finite number round-trips
through `String(...)` to itself; `String(null) = "null"` and
`String(undefined) = "undefined"` have no numeric prefix, hence `NaN`
(`none`). -/
def parseFloatJs : JsValue → Option ℚ
  | .str s => jsParseFloat s
  | .num q => some q
  | .null => none
  | .undefined => none

/-- Model of `parseFloat(...) || 0`: `NaN` (`none`) falls back to `0`
(a parsed `0` is falsy as well, but `0 || 0 = 0`). -/
def parsedOrZero (v : JsValue) : ℚ :=
  (parseFloatJs v).getD 0

/-- Model of JS string coercion of a value used as an object property key
(`regionTotals[region]`): `String(undefined) = "undefined"`,
`String(null) = "null"`.  The formatting of non-integer numbers (`toString`
on `ℚ`) is a stand-in for JS number formatting; no theorem depends on it,
since Cube transmits row values as strings. -/
def jsKeyString : JsValue → String
  | .str s => s
  | .num q => toString q
  | .null => "null"
  | .undefined => "undefined"

/-- One chart dataset (`{label, data}` in `ChartData.datasets`); the
purely presentational colour/border fields of the source are constants
and are omitted. -/
structure ChartDataset where
  label : String
  data : List ℚ
deriving DecidableEq, Repr

/-- `ChartData` from `src/types/cube.ts`: positional labels plus the
datasets.  Labels are kept as raw `JsValue`s because the source's
`row[...] as string` is a compile-time cast only. -/
structure ChartData where
  labels : List JsValue
  datasets : List ChartDataset
deriving DecidableEq, Repr

/-- `CubeFilter` from `src/types/cube.ts`. -/
structure CubeFilter where
  member : String
  operator : String
  values : List String
deriving DecidableEq, Repr

/-- `CubeTimeDimension` from `src/types/cube.ts` (`dateRange` is a string
or a string array). -/
structure CubeTimeDimension where
  dimension : String
  granularity : Option String := none
  dateRange : Option (String ⊕ List String) := none
deriving DecidableEq, Repr

/-- `CubeQuery` from `src/types/cube.ts` (the `order` map is omitted; no
query built by the dashboard uses it). -/
structure CubeQuery where
  measures : Option (List String) := none
  dimensions : Option (List String) := none
  timeDimensions : Option (List CubeTimeDimension) := none
  filters : Option (List CubeFilter) := none
  limit : Option ℕ := none
  offset : Option ℕ := none
deriving DecidableEq, Repr

/-- Display metadata for one member (`CubeMeasureAnnotation` /
`CubeDimensionAnnotation` / `CubeTimeDimensionAnnotation`). -/
structure CubeMemberAnnotation where
  title : String
  shortTitle : String
  type : String
  format : Option String := none
deriving DecidableEq, Repr

/-- The `annotation` object of a Cube response. -/
structure CubeAnnotation where
  measures : List (String × CubeMemberAnnotation) := []
  dimensions : List (String × CubeMemberAnnotation) := []
  timeDimensions : List (String × CubeMemberAnnotation) := []
deriving DecidableEq, Repr

/-- `CubeQueryResponse` from `src/types/cube.ts`. -/
structure CubeQueryResponse where
  query : CubeQuery
  data : List Row
  annotation : CubeAnnotation := {}
deriving DecidableEq

/-! ### The six response normalizers of `Dashboard.tsx` -/

/-- `processSalesOverTimeData`.  The label formatting
`new Date(dateStr).toLocaleDateString('en-US', {month, year})` calls the
external `Date` API and is abstracted as the parameter `fmt`; no theorem
depends on the produced text. -/
def processSalesOverTimeData (fmt : JsValue → String) (response : CubeQueryResponse) : ChartData :=
  if response.data.isEmpty then
    { labels := [], datasets := [{ label := "Revenue", data := [] }] }
  else
    let labels := response.data.map (fun row => JsValue.str (fmt (row.get "customer_behavior.order_date.month")))
    let data := response.data.map (fun row => parsedOrZero (row.get "customer_behavior.total_revenue"))
    { labels := labels, datasets := [{ label := "Revenue", data := data }] }

/-- Lookup in the model of the JS accumulator object
`regionTotals: { [key: string]: number }`. -/
def getVal? (m : List (String × ℚ)) (k : String) : Option ℚ :=
  (m.find? (fun kv => kv.1 = k)).map (fun kv => kv.2)

/-- Assignment `regionTotals[k] = v` for a key already present: the key
keeps its position (JS property-order semantics). -/
def setVal (m : List (String × ℚ)) (k : String) (v : ℚ) : List (String × ℚ) :=
  m.map (fun kv => if kv.1 = k then (k, v) else kv)

/-- `const region = row['customer_behavior.region'] as string`, as it is
used as the property key of `regionTotals` (JS coerces the key to a
string). -/
def rowRegionKey (row : Row) : String :=
  jsKeyString (row.get "customer_behavior.region")

/-- `const amount = parseFloat(String(row['customer_behavior.total_revenue'])) || 0`. -/
def rowRevenueAmount (row : Row) : ℚ :=
  parsedOrZero (row.get "customer_behavior.total_revenue")

/-- One iteration of the `response.data.forEach` loop of
`processSalesByRegionData`: `if (regionTotals[region]) { += amount } else
{ = amount }` — note the JS truthiness test, which takes the `else`
(overwrite) branch when the stored total is `0`; a fresh key is appended
in insertion order. -/
def regionStep (m : List (String × ℚ)) (row : Row) : List (String × ℚ) :=
  let region := rowRegionKey row
  let amount := rowRevenueAmount row
  match getVal? m region with
  | some old => if old ≠ 0 then setVal m region (old + amount) else setVal m region amount
  | none => m ++ [(region, amount)]

/-- `processSalesByRegionData`: group rows by region and sum the revenue;
`labels = Object.keys(regionTotals)`, `data = Object.values(regionTotals)`
(insertion order). -/
def processSalesByRegionData (response : CubeQueryResponse) : ChartData :=
  if response.data.isEmpty then
    { labels := [], datasets := [{ label := "Revenue by Region (LTM)", data := [] }] }
  else
    let regionTotals := response.data.foldl regionStep []
    let labels := regionTotals.map (fun kv => JsValue.str kv.1)
    let data := regionTotals.map (fun kv => kv.2)
    { labels := labels, datasets := [{ label := "Revenue by Region (LTM)", data := data }] }

/-- `processCustomerSegmentsData`. -/
def processCustomerSegmentsData (response : CubeQueryResponse) : ChartData :=
  if response.data.isEmpty then
    { labels := [], datasets := [{ label := "Revenue by Segment", data := [] }] }
  else
    let labels := response.data.map (fun row => row.get "customer_behavior.customers_segment")
    let data := response.data.map (fun row => parsedOrZero (row.get "customer_behavior.total_revenue"))
    { labels := labels, datasets := [{ label := "Revenue by Segment", data := data }] }

/-- `processOrderSizeData`. -/
def processOrderSizeData (response : CubeQueryResponse) : ChartData :=
  if response.data.isEmpty then
    { labels := [], datasets := [{ label := "Order Count", data := [] }] }
  else
    let labels := response.data.map (fun row => row.get "customer_behavior.order_size_category")
    let data := response.data.map (fun row => parsedOrZero (row.get "customer_behavior.count"))
    { labels := labels, datasets := [{ label := "Order Count", data := data }] }

/-- `processTopBrandsData` (here the source calls `parseFloat` directly on
the cast value; `parseFloat` coerces to string, so the model is the same
`parsedOrZero`). -/
def processTopBrandsData (response : CubeQueryResponse) : ChartData :=
  if response.data.isEmpty then
    { labels := [], datasets := [{ label := "Revenue by Brand", data := [] }] }
  else
    let labels := response.data.map (fun row => row.get "sales.parts_brand")
    let data := response.data.map (fun row => parsedOrZero (row.get "sales.total_sales_amount"))
    { labels := labels, datasets := [{ label := "Revenue by Brand", data := data }] }

/-- `processOrderStatusData`. -/
def processOrderStatusData (response : CubeQueryResponse) : ChartData :=
  if response.data.isEmpty then
    { labels := [], datasets := [{ label := "Orders by Status", data := [] }] }
  else
    let labels := response.data.map (fun row => row.get "customer_behavior.status")
    let data := response.data.map (fun row => parsedOrZero (row.get "customer_behavior.count"))
    { labels := labels, datasets := [{ label := "Orders by Status", data := data }] }

/-! ### `CubeApiService` (`src/services/cubeApi.ts`) -/

/-- The mutable configuration of the singleton `CubeApiService`
(`apiUrl`, `token` fields, defaulted to the literal placeholders when the
environment variables are unset). -/
structure CubeApiConfig where
  apiUrl : String
  token : String
deriving DecidableEq

/-- `CubeApiService.isConfigured`. -/
def isConfigured (c : CubeApiConfig) : Bool :=
  c.apiUrl ≠ "YOUR_CUBE_ENDPOINT_HERE" && c.token ≠ "YOUR_BEARER_TOKEN_HERE" &&
    c.apiUrl.length > 0 && c.token.length > 0

/-- The HTTP response attached to a rejected axios call (absent for pure
transport failures such as network timeouts).  `dataJson` models
`JSON.stringify(error.response?.data)` — `none` when `stringify` yields
`undefined`. -/
structure AxiosResponse where
  status : ℕ
  statusText : String
  dataJson : Option String := none
deriving DecidableEq

/-- A rejected axios call: optional HTTP response plus the error message
(`timeout of ...ms exceeded` for timeouts, which carry no response). -/
structure AxiosFailure where
  response : Option AxiosResponse
  message : String
deriving DecidableEq

/-- The outcome of the `axios.get` call, supplied to the model of `query`
as an oracle. `otherFail` models a thrown value for which
`axios.isAxiosError` is false. -/
inductive AxiosOutcome where
  | success (resp : CubeQueryResponse)
  | axiosFail (e : AxiosFailure)
  | otherFail (msg : String)

/-- The errors thrown by `CubeApiService.query`, one constructor per
`throw` site (plus `nonAxios` for the final `throw error` re-throw).  The
parametric constructors carry the interpolated detail string. -/
inductive ThrownError where
  | notConfigured
  | authenticationFailed
  | accessDenied
  | badRequest (details : String)
  | serverError (details : String)
  | apiError (details : String)
  | nonAxios (msg : String)
deriving DecidableEq

/-- JS `a || b` on an optional string (`undefined` and `""` are falsy). -/
def jsOrStr (a : Option String) (b : String) : String :=
  match a with
  | some s => if s = "" then b else s
  | none => b

/-- `JSON.stringify(error.response?.data) || error.response?.statusText
|| error.message`. -/
def bodyDetails (e : AxiosFailure) : String :=
  jsOrStr (e.response.bind (fun r => r.dataJson))
    (jsOrStr (e.response.map (fun r => r.statusText)) e.message)

/-- The `catch` block of `CubeApiService.query` for an axios error: the
status-code case split selecting which error to throw. -/
def classifyAxiosError (e : AxiosFailure) : ThrownError :=
  let status := e.response.map (fun r => r.status)
  if status = some 401 then .authenticationFailed
  else if status = some 403 then .accessDenied
  else if status = some 400 then .badRequest (bodyDetails e)
  else if status = some 500 then .serverError (bodyDetails e)
  else .apiError (jsOrStr (e.response.map (fun r => r.statusText)) e.message)

/-- `new Error(...)` message text of each throw site. -/
def ThrownError.message : ThrownError → String
  | .notConfigured => "Cube API not configured. Please set your endpoint and token."
  | .authenticationFailed => "Authentication failed. Please check your Bearer token."
  | .accessDenied => "Access denied. Please check your permissions."
  | .badRequest d => "Bad Request: " ++ d
  | .serverError d => "Server Error: " ++ d
  | .apiError d => "API Error: " ++ d
  | .nonAxios m => m

/-- Constructor discriminator for `ThrownError`. -/
def ThrownError.tag : ThrownError → ℕ
  | .notConfigured => 0
  | .authenticationFailed => 1
  | .accessDenied => 2
  | .badRequest _ => 3
  | .serverError _ => 4
  | .apiError _ => 5
  | .nonAxios _ => 6

/-- Result of one `CubeApiService.query` invocation, together with the
book-keeping bit recording whether the axios network call was reached. -/
structure QueryResult where
  result : Except ThrownError CubeQueryResponse
  networkAttempted : Bool

/-- `CubeApiService.query`: fail fast when unconfigured, otherwise run the
network call and map a rejection through the `catch` block. -/
def CubeApiService.query (cfg : CubeApiConfig) (net : CubeQuery → AxiosOutcome)
    (q : CubeQuery) : QueryResult :=
  if isConfigured cfg then
    match net q with
    | .success r => { result := .ok r, networkAttempted := true }
    | .axiosFail e => { result := .error (classifyAxiosError e), networkAttempted := true }
    | .otherFail m => { result := .error (.nonAxios m), networkAttempted := true }
  else
    { result := .error .notConfigured, networkAttempted := false }

/-! ### `FilterBar` (`src/static/tpch-dashboard/src/components/FilterBar.tsx`) -/

/-- The two multi-select controls' state. -/
structure FilterSelection where
  selectedRegions : List String
  selectedSegments : List String
deriving DecidableEq

/-- The canonical filter list computed by `updateFilters`: a region
filter when some regions are selected, then a segment filter when some
segments are selected. -/
def canonicalFilters (sel : FilterSelection) : List CubeFilter :=
  (if sel.selectedRegions.length > 0 then
    [{ member := "customer_behavior.region", operator := "equals",
       values := sel.selectedRegions }]
   else []) ++
  (if sel.selectedSegments.length > 0 then
    [{ member := "customer_behavior.customers_segment", operator := "equals",
       values := sel.selectedSegments }]
   else [])

/-- JSON string escaping for the characters JS is guaranteed to escape in
the strings at hand (backslash, quote, and the common control
characters); a stand-in for the full `JSON.stringify` escaping table. -/
def jsonEscapeChar (c : Char) : String :=
  if c = '\\' then "\\\\"
  else if c = '"' then "\\\""
  else if c = '\n' then "\\n"
  else if c = '\t' then "\\t"
  else if c = '\r' then "\\r"
  else String.singleton c

/-- A JSON string literal. -/
def jsonString (s : String) : String :=
  "\"" ++ String.join (s.toList.map jsonEscapeChar) ++ "\""

/-- `JSON.stringify` of one `CubeFilter` object (keys in declaration
order, as produced by the literals in `updateFilters`). -/
def stringifyFilter (f : CubeFilter) : String :=
  "\x7b\"member\":" ++ jsonString f.member ++
    ",\"operator\":" ++ jsonString f.operator ++
    ",\"values\":[" ++ String.intercalate "," (f.values.map jsonString) ++ "]\x7d"

/-- `JSON.stringify(filters)` for the filter array. -/
def stringifyFilters (fs : List CubeFilter) : String :=
  "[" ++ String.intercalate "," (fs.map stringifyFilter) ++ "]"

/-- The persistent ref `prevFiltersRef` (initially the empty string). -/
structure FilterBarState where
  prevFiltersRef : String
deriving DecidableEq

/-- One run of `updateFilters`: compute the canonical list, compare its
`JSON.stringify` against the ref, and emit `onFiltersChange` (returned as
`some filters`) only when the strings differ. -/
def updateFilters (sel : FilterSelection) (st : FilterBarState) :
    FilterBarState × Option (List CubeFilter) :=
  let filters := canonicalFilters sel
  let filtersString := stringifyFilters filters
  if filtersString ≠ st.prevFiltersRef then
    ({ prevFiltersRef := filtersString }, some filters)
  else
    (st, none)

/-! ### The `Dashboard` refresh coordinator (`Dashboard.tsx`)

The React component is modelled as an explicit state record and one step
function per event on the single-threaded event loop:

* `handleFiltersChange` — `setFilters` followed by the `useEffect` on
  `[filters]`, which invokes `loadDashboardData` (guarded by
  `loadingRef`);
* `settleFetches` — the resumption of `loadDashboardData` when the
  `Promise.all` over the six widget fetches settles (the `try`/`catch`/
  `finally` tail of the function).

`inFlight` records the filter snapshot captured by the async closure of
the outstanding cycle, and `appliedFrom` records which cycle's responses
the current chart state was processed from — book-keeping that makes the
staleness behaviour statable; neither influences the computed data. -/

/-- The six per-widget fetch results a refresh cycle awaits
(`Promise.all([getSalesOverTime, getSalesByRegion,
getCustomerSegmentRevenue, getOrderSizeDistribution, getTopBrands,
getOrderStatusBreakdown])`); a failed fetch is `.error message`. -/
structure FetchBatch where
  salesOverTime : Except String CubeQueryResponse
  salesByRegion : Except String CubeQueryResponse
  customerSegments : Except String CubeQueryResponse
  orderSize : Except String CubeQueryResponse
  topBrands : Except String CubeQueryResponse
  orderStatus : Except String CubeQueryResponse

/-- `Promise.all` over the six fetches: all fulfilled → the tuple of
responses; otherwise the rejection. (In JS the rejection that wins is the
first to settle in time; the model picks the first in argument order —
no theorem depends on which message is reported.) -/
def promiseAll (b : FetchBatch) :
    Except String (CubeQueryResponse × CubeQueryResponse × CubeQueryResponse ×
      CubeQueryResponse × CubeQueryResponse × CubeQueryResponse) := do
  let r₁ ← b.salesOverTime
  let r₂ ← b.salesByRegion
  let r₃ ← b.customerSegments
  let r₄ ← b.orderSize
  let r₅ ← b.topBrands
  let r₆ ← b.orderStatus
  pure (r₁, r₂, r₃, r₄, r₅, r₆)

/-- The React state of `Dashboard` (tab state omitted), the `loadingRef`
ref, and the two pieces of model book-keeping described above. -/
structure DashboardState where
  filters : List CubeFilter
  loading : Bool
  loadingRef : Bool
  error : Option String
  salesOverTime : Option ChartData
  salesByRegion : Option ChartData
  customerSegments : Option ChartData
  orderSizeDistribution : Option ChartData
  topBrands : Option ChartData
  orderStatus : Option ChartData
  inFlight : Option (List CubeFilter)
  appliedFrom : Option (List CubeFilter)

/-- The state after mount, before any event: `loading` starts `true`,
everything else empty. -/
def DashboardState.initial : DashboardState :=
  { filters := [], loading := true, loadingRef := false, error := none,
    salesOverTime := none, salesByRegion := none, customerSegments := none,
    orderSizeDistribution := none, topBrands := none, orderStatus := none,
    inFlight := none, appliedFrom := none }

/-- `loadDashboardData` up to its first `await`: skip when `loadingRef`
is already set; fail with the configuration error when the API is not
configured; otherwise mark the cycle in flight with the current
`filters` snapshot (the closure capture) and issue the six fetches. -/
def loadDashboardData (configured : Bool) (s : DashboardState) : DashboardState :=
  if s.loadingRef then s
  else if !configured then
    { s with error := some "Please configure your Cube API endpoint and token in the .env file.",
             loading := false }
  else
    { s with loadingRef := true, loading := true, error := none,
             inFlight := some s.filters }

/-- `handleFiltersChange` followed by the `useEffect` on `[filters]`:
store the new filter list, then run `loadDashboardData`. -/
def handleFiltersChange (configured : Bool) (s : DashboardState)
    (newFilters : List CubeFilter) : DashboardState :=
  loadDashboardData configured { s with filters := newFilters }

/-- The resumption of `loadDashboardData` when the `Promise.all`
settles: on fulfilment every widget state is set to its processed
response (no staleness comparison of any kind); on rejection the single
catch block stores the message in the dashboard-wide `error` state and no
widget state is touched; the `finally` block clears `loadingRef` and
`loading` either way. A settlement with no cycle in flight is a no-op. -/
def settleFetches (fmt : JsValue → String) (s : DashboardState) (b : FetchBatch) :
    DashboardState :=
  match s.inFlight with
  | none => s
  | some issuedWith =>
    match promiseAll b with
    | .ok (r₁, r₂, r₃, r₄, r₅, r₆) =>
      { s with loadingRef := false, loading := false, inFlight := none,
               salesOverTime := some (processSalesOverTimeData fmt r₁),
               salesByRegion := some (processSalesByRegionData r₂),
               customerSegments := some (processCustomerSegmentsData r₃),
               orderSizeDistribution := some (processOrderSizeData r₄),
               topBrands := some (processTopBrandsData r₅),
               orderStatus := some (processOrderStatusData r₆),
               appliedFrom := some issuedWith }
    | .error msg =>
      { s with loadingRef := false, loading := false, inFlight := none,
               error := some msg }

/-- The root render branch of `Dashboard`: a set `error` state renders
the full-page error `Alert` instead of the widget grid. -/
def rendersErrorScreen (s : DashboardState) : Bool :=
  s.error.isSome

/-! ### Concrete fixtures used by scenario theorems and witnesses -/

/-- An empty-but-well-formed response. -/
def emptyResp : CubeQueryResponse :=
  { query := {}, data := [] }

/-- First row of the regional-revenue scenario (rows are keyed by the
field identifiers the aggregating recipe reads). -/
def c8row₁ : Row :=
  [("customer_behavior.region", .str "AMERICA"), ("customer_behavior.total_revenue", .str "100.50")]

/-- Second row of the regional-revenue scenario. -/
def c8row₂ : Row :=
  [("customer_behavior.region", .str "EUROPE"), ("customer_behavior.total_revenue", .str "200.25")]

/-- Third row of the regional-revenue scenario (repeats the first label). -/
def c8row₃ : Row :=
  [("customer_behavior.region", .str "AMERICA"), ("customer_behavior.total_revenue", .str "50.00")]

/-- The regional-revenue scenario response. -/
def c8resp : CubeQueryResponse :=
  { query := { measures := some ["sales.total_sales_amount"], dimensions := some ["sales.region"] },
    data := [c8row₁, c8row₂, c8row₃] }

/-- A row whose numeric fields fail numeric parsing (`null` and a
non-numeric string). -/
def badRow : Row :=
  [("customer_behavior.total_revenue", .null), ("sales.total_sales_amount", .str "N/A"),
   ("sales.parts_brand", .str "ACME")]

/-- A response containing just `badRow`. -/
def badResp : CubeQueryResponse :=
  { query := {}, data := [badRow] }

/-- Canonical filter list of a first selection (change A). -/
def filtersA : List CubeFilter :=
  [{ member := "customer_behavior.region", operator := "equals", values := ["ASIA"] }]

/-- Canonical filter list of a later selection (change B). -/
def filtersB : List CubeFilter :=
  [{ member := "customer_behavior.customers_segment", operator := "equals", values := ["BUILDING"] }]

/-- The dashboard state right after change A was issued from the initial
state: cycle A is in flight. -/
def loadingStateA : DashboardState :=
  handleFiltersChange true DashboardState.initial filtersA

/-- A settlement in which all six fetches fulfilled. -/
def okBatch : FetchBatch :=
  { salesOverTime := .ok emptyResp, salesByRegion := .ok emptyResp,
    customerSegments := .ok emptyResp, orderSize := .ok emptyResp,
    topBrands := .ok emptyResp, orderStatus := .ok emptyResp }

/-- A settlement in which the top-brands fetch failed and all five
sibling fetches fulfilled. -/
def failBatch : FetchBatch :=
  { okBatch with topBrands := .error "Server Error: upstream query failure" }

/-- A properly configured client. -/
def validCfg : CubeApiConfig :=
  { apiUrl := "https://analytics.example.com/cubejs-api/v1", token := "eyJhbGciOiJIUzI1NiJ9.demo" }

/-- A client whose token was left at the literal placeholder default. -/
def placeholderCfg : CubeApiConfig :=
  { apiUrl := "https://analytics.example.com/cubejs-api/v1", token := "YOUR_BEARER_TOKEN_HERE" }

/-- An axios rejection carrying an HTTP 401 response. -/
def fail401 : AxiosFailure :=
  { response := some { status := 401, statusText := "Unauthorized" },
    message := "Request failed with status code 401" }

/-- An axios rejection carrying an HTTP 403 response. -/
def fail403 : AxiosFailure :=
  { response := some { status := 403, statusText := "Forbidden" },
    message := "Request failed with status code 403" }

/-- The JSON body of the modelled HTTP 400 response. -/
def badRequestBody : String :=
  "\x7b\"error\":\"Query should contain either measures or dimensions\"\x7d"

/-- An axios rejection carrying an HTTP 400 response. -/
def fail400 : AxiosFailure :=
  { response := some { status := 400, statusText := "Bad Request", dataJson := some badRequestBody },
    message := "Request failed with status code 400" }

/-- An axios rejection carrying an HTTP 500 response. -/
def fail500 : AxiosFailure :=
  { response := some { status := 500, statusText := "Internal Server Error" },
    message := "Request failed with status code 500" }

/-- A network timeout: an axios rejection with no HTTP response. -/
def timeoutFailure : AxiosFailure :=
  { response := none, message := "timeout of 10000ms exceeded" }

/-! ### Helper lemmas about the region aggregation -/

theorem keys_setVal (m : List (String × ℚ)) (k : String) (v : ℚ) :
    (setVal m k v).map Prod.fst = m.map Prod.fst := by
  induction m with
  | nil => rfl
  | cons kv t ih =>
    simp only [setVal, List.map_cons] at ih ⊢
    by_cases h : kv.1 = k
    · simp [h, ih]
    · simp [h, ih]

theorem getVal?_eq_none_iff (m : List (String × ℚ)) (k : String) :
    getVal? m k = none ↔ k ∉ m.map Prod.fst := by
  simp only [getVal?, Option.map_eq_none', List.find?_eq_none, List.mem_map, decide_eq_true_eq]
  constructor
  · rintro h ⟨kv, hkv, rfl⟩
    exact h kv hkv rfl
  · rintro h kv hkv rfl
    exact h ⟨kv, hkv, rfl⟩

theorem keys_regionStep (m : List (String × ℚ)) (row : Row) :
    (regionStep m row).map Prod.fst =
      if rowRegionKey row ∈ m.map Prod.fst then m.map Prod.fst
      else m.map Prod.fst ++ [rowRegionKey row] := by
  rw [regionStep]
  rcases hfind : getVal? m (rowRegionKey row) with _ | v
  · rw [if_neg ((getVal?_eq_none_iff m (rowRegionKey row)).mp hfind)]
    simp
  · have hmem : rowRegionKey row ∈ m.map Prod.fst := by
      by_contra hmem
      rw [(getVal?_eq_none_iff m (rowRegionKey row)).mpr hmem] at hfind
      exact Option.noConfusion hfind
    rw [if_pos hmem]
    by_cases hv : v ≠ 0 <;> simp [hv, keys_setVal]

theorem keys_foldl_regionStep (rows : List Row) (m : List (String × ℚ))
    (hm : (m.map Prod.fst).Nodup) :
    ((rows.foldl regionStep m).map Prod.fst).Nodup ∧
      ∀ k, k ∈ (rows.foldl regionStep m).map Prod.fst ↔
        k ∈ m.map Prod.fst ∨ k ∈ rows.map rowRegionKey := by
  induction rows generalizing m with
  | nil => exact ⟨hm, fun k => by simp⟩
  | cons row rest ih =>
    rw [List.foldl_cons]
    have hkeys := keys_regionStep m row
    by_cases hmem : rowRegionKey row ∈ m.map Prod.fst
    · rw [if_pos hmem] at hkeys
      obtain ⟨hnd, hiff⟩ := ih (regionStep m row) (hkeys ▸ hm)
      refine ⟨hnd, fun k => ?_⟩
      rw [hiff k, hkeys]
      constructor
      · rintro (h | h)
        · exact Or.inl h
        · exact Or.inr (by simp [h])
      · rintro (h | h)
        · exact Or.inl h
        · simp only [List.map_cons, List.mem_cons] at h
          rcases h with h | h
          · exact Or.inl (h ▸ hmem)
          · exact Or.inr h
    · rw [if_neg hmem] at hkeys
      have hnd' : ((regionStep m row).map Prod.fst).Nodup := by
        rw [hkeys]
        exact (List.perm_append_singleton _ _).nodup_iff.mpr (List.nodup_cons.mpr ⟨hmem, hm⟩)
      obtain ⟨hnd, hiff⟩ := ih (regionStep m row) hnd'
      refine ⟨hnd, fun k => ?_⟩
      rw [hiff k, hkeys]
      simp only [List.mem_append, List.mem_singleton, List.map_cons, List.mem_cons]
      tauto

theorem length_keys_foldl_regionStep (rows : List Row) :
    (rows.foldl regionStep []).length = (rows.map rowRegionKey).dedup.length := by
  obtain ⟨hnd, hmem⟩ := keys_foldl_regionStep rows [] (by simp)
  have hperm : List.Perm ((rows.foldl regionStep []).map Prod.fst) ((rows.map rowRegionKey).dedup) := by
    rw [List.perm_ext_iff_of_nodup hnd (List.nodup_dedup _)]
    intro a
    rw [List.mem_dedup, hmem a]
    simp
  have := hperm.length_eq
  simpa using this

theorem string_length_pos_iff (s : String) : 0 < s.length ↔ s ≠ "" := by
  cases s with
  | mk l =>
    constructor
    · intro h he
      rw [he] at h
      simp [String.length] at h
    · intro h
      rw [String.length]
      cases l with
      | nil => exact absurd rfl h
      | cons c t => simp

theorem classifyAxiosError_ne_notConfigured (e : AxiosFailure) :
    classifyAxiosError e ≠ ThrownError.notConfigured := by
  rw [classifyAxiosError]
  split
  · intro h
    exact ThrownError.noConfusion h
  · split
    · intro h
      exact ThrownError.noConfusion h
    · split
      · intro h
        exact ThrownError.noConfusion h
      · split
        · intro h
          exact ThrownError.noConfusion h
        · intro h
          exact ThrownError.noConfusion h

theorem ne_of_take2_ne {s t : String} (h : s.data.take 2 ≠ t.data.take 2) : s ≠ t :=
  fun he => h (he ▸ rfl)

theorem take2_badRequest (d : String) : ("Bad Request: " ++ d).data.take 2 = ['B', 'a'] := by
  rw [String.data_append, List.take_append_of_le_length (by decide)]
  decide

theorem take2_serverError (d : String) : ("Server Error: " ++ d).data.take 2 = ['S', 'e'] := by
  rw [String.data_append, List.take_append_of_le_length (by decide)]
  decide

theorem take2_apiError (d : String) : ("API Error: " ++ d).data.take 2 = ['A', 'P'] := by
  rw [String.data_append, List.take_append_of_le_length (by decide)]
  decide

/-! ### Claim theorems -/

/-- C3: every `ChartSeries` produced by a normalizer has
`labels.length` equal to the length of each of its data series; for the
five non-aggregating normalizers both lengths equal the row count `N`,
and for the aggregate-by-label normalizer (`processSalesByRegionData`)
`labels.length` equals the number of distinct (key-coerced) labels in the
input rows. -/
theorem C3_labels_length_invariant (fmt : JsValue → String) (resp : CubeQueryResponse) :
    (∀ ds ∈ (processSalesOverTimeData fmt resp).datasets,
      (processSalesOverTimeData fmt resp).labels.length = ds.data.length) ∧
    (∀ ds ∈ (processSalesByRegionData resp).datasets,
      (processSalesByRegionData resp).labels.length = ds.data.length) ∧
    (∀ ds ∈ (processCustomerSegmentsData resp).datasets,
      (processCustomerSegmentsData resp).labels.length = ds.data.length) ∧
    (∀ ds ∈ (processOrderSizeData resp).datasets,
      (processOrderSizeData resp).labels.length = ds.data.length) ∧
    (∀ ds ∈ (processTopBrandsData resp).datasets,
      (processTopBrandsData resp).labels.length = ds.data.length) ∧
    (∀ ds ∈ (processOrderStatusData resp).datasets,
      (processOrderStatusData resp).labels.length = ds.data.length) ∧
    (processSalesOverTimeData fmt resp).labels.length = resp.data.length ∧
    (processCustomerSegmentsData resp).labels.length = resp.data.length ∧
    (processOrderSizeData resp).labels.length = resp.data.length ∧
    (processTopBrandsData resp).labels.length = resp.data.length ∧
    (processOrderStatusData resp).labels.length = resp.data.length ∧
    (processSalesByRegionData resp).labels.length = (resp.data.map rowRegionKey).dedup.length := by
  by_cases hd : resp.data.isEmpty
  · have hd' : resp.data = [] := List.isEmpty_iff.mp hd
    refine ⟨?_, ?_, ?_, ?_, ?_, ?_, ?_, ?_, ?_, ?_, ?_, ?_⟩ <;>
      simp [processSalesOverTimeData, processSalesByRegionData, processCustomerSegmentsData,
        processOrderSizeData, processTopBrandsData, processOrderStatusData, hd']
  · refine ⟨?_, ?_, ?_, ?_, ?_, ?_, ?_, ?_, ?_, ?_, ?_, ?_⟩ <;>
      simp [processSalesOverTimeData, processSalesByRegionData, processCustomerSegmentsData,
        processOrderSizeData, processTopBrandsData, processOrderStatusData, hd,
        length_keys_foldl_regionStep]

/-- C3 witness: the invariant instantiated on a concrete response. -/
theorem C3_labels_length_invariant_witness :
    (processSalesOverTimeData (fun _ => "") emptyResp).labels.length =
      ({ label := "Revenue", data := [] } : ChartDataset).data.length ∧
    (processSalesByRegionData emptyResp).labels.length =
      (emptyResp.data.map rowRegionKey).dedup.length :=
  ⟨(C3_labels_length_invariant (fun _ => "") emptyResp).1
      { label := "Revenue", data := [] } (by decide),
    (C3_labels_length_invariant (fun _ => "") emptyResp).2.2.2.2.2.2.2.2.2.2.2⟩

/-- C6: a response with an empty row sequence normalizes, in each of the
six normalizers, to a `ChartSeries` with empty labels and one expected
data series that is present but empty; the functions are total, so no
exception is possible. -/
theorem C6_empty_response (fmt : JsValue → String) (resp : CubeQueryResponse)
    (h : resp.data = []) :
    processSalesOverTimeData fmt resp =
      { labels := [], datasets := [{ label := "Revenue", data := [] }] } ∧
    processSalesByRegionData resp =
      { labels := [], datasets := [{ label := "Revenue by Region (LTM)", data := [] }] } ∧
    processCustomerSegmentsData resp =
      { labels := [], datasets := [{ label := "Revenue by Segment", data := [] }] } ∧
    processOrderSizeData resp =
      { labels := [], datasets := [{ label := "Order Count", data := [] }] } ∧
    processTopBrandsData resp =
      { labels := [], datasets := [{ label := "Revenue by Brand", data := [] }] } ∧
    processOrderStatusData resp =
      { labels := [], datasets := [{ label := "Orders by Status", data := [] }] } := by
  refine ⟨?_, ?_, ?_, ?_, ?_, ?_⟩ <;>
    simp [processSalesOverTimeData, processSalesByRegionData, processCustomerSegmentsData,
      processOrderSizeData, processTopBrandsData, processOrderStatusData, h]

/-- C6 witness: the empty-response behaviour at a concrete response. -/
theorem C6_empty_response_witness :
    processSalesOverTimeData (fun _ => "") emptyResp =
      { labels := [], datasets := [{ label := "Revenue", data := [] }] } ∧
    processSalesByRegionData emptyResp =
      { labels := [], datasets := [{ label := "Revenue by Region (LTM)", data := [] }] } ∧
    processCustomerSegmentsData emptyResp =
      { labels := [], datasets := [{ label := "Revenue by Segment", data := [] }] } ∧
    processOrderSizeData emptyResp =
      { labels := [], datasets := [{ label := "Order Count", data := [] }] } ∧
    processTopBrandsData emptyResp =
      { labels := [], datasets := [{ label := "Revenue by Brand", data := [] }] } ∧
    processOrderStatusData emptyResp =
      { labels := [], datasets := [{ label := "Orders by Status", data := [] }] } :=
  C6_empty_response (fun _ => "") emptyResp rfl

/-- C7: a row whose target numeric field fails numeric parsing
(non-numeric string, `null`, or absent — all the cases with
`parseFloatJs _ = none`) contributes `0` at its position in the data
series; shown generically for the `|| 0` fallback and positionally for
the two cited normalizers.  The functions are total, so no error can
propagate. -/
theorem C7_unparseable_entry_is_zero (fmt : JsValue → String) (resp : CubeQueryResponse)
    (i : ℕ) (row : Row) (hrow : resp.data[i]? = some row) :
    (∀ v : JsValue, parseFloatJs v = none → parsedOrZero v = 0) ∧
    (parseFloatJs (row.get "customer_behavior.total_revenue") = none →
      ∃ ds, (processSalesOverTimeData fmt resp).datasets = [ds] ∧ ds.data[i]? = some 0) ∧
    (parseFloatJs (row.get "sales.total_sales_amount") = none →
      ∃ ds, (processTopBrandsData resp).datasets = [ds] ∧ ds.data[i]? = some 0) := by
  have hne : ¬resp.data.isEmpty := by
    intro he
    rw [List.isEmpty_iff.mp he] at hrow
    simp at hrow
  refine ⟨fun v hv => by rw [parsedOrZero, hv]; rfl, fun h => ?_, fun h => ?_⟩
  · have hds : (processSalesOverTimeData fmt resp).datasets = [{ label := "Revenue", data := resp.data.map (fun r => parsedOrZero (r.get "customer_behavior.total_revenue")) }] := by
      rw [processSalesOverTimeData, if_neg hne]
    refine ⟨_, hds, ?_⟩
    simp only [List.getElem?_map, hrow, Option.map_some']
    rw [parsedOrZero, h]
    rfl
  · have hds : (processTopBrandsData resp).datasets = [{ label := "Revenue by Brand", data := resp.data.map (fun r => parsedOrZero (r.get "sales.total_sales_amount")) }] := by
      rw [processTopBrandsData, if_neg hne]
    refine ⟨_, hds, ?_⟩
    simp only [List.getElem?_map, hrow, Option.map_some']
    rw [parsedOrZero, h]
    rfl

/-- C7 witness: a concrete response whose only row has a `null` revenue
field and a non-numeric sales amount. -/
theorem C7_unparseable_entry_is_zero_witness :
    (∀ v : JsValue, parseFloatJs v = none → parsedOrZero v = 0) ∧
    (parseFloatJs (badRow.get "customer_behavior.total_revenue") = none →
      ∃ ds, (processSalesOverTimeData (fun _ => "") badResp).datasets = [ds] ∧
        ds.data[0]? = some 0) ∧
    (parseFloatJs (badRow.get "sales.total_sales_amount") = none →
      ∃ ds, (processTopBrandsData badResp).datasets = [ds] ∧ ds.data[0]? = some 0) :=
  C7_unparseable_entry_is_zero (fun _ => "") badResp 0 badRow rfl

/-- C8: the aggregate-by-label recipe applied to the scenario rows
(label `AMERICA`/`EUROPE`/`AMERICA`, amounts `100.50`/`200.25`/`50.00`)
produces labels `["AMERICA", "EUROPE"]` and the single series
`[150.50, 200.25]`.  The rows are keyed by the field identifiers the
repository's aggregating normalizer reads. -/
theorem C8_region_aggregation_scenario :
    processSalesByRegionData c8resp =
      { labels := [.str "AMERICA", .str "EUROPE"],
        datasets := [{ label := "Revenue by Region (LTM)", data := [(301 : ℚ)/2, (801 : ℚ)/4] }] } := by
  have h₁ : parsedOrZero (c8row₁.get "customer_behavior.total_revenue") = 201/2 := by
    rw [show c8row₁.get "customer_behavior.total_revenue" = .str "100.50" from by decide]
    rw [parsedOrZero, parseFloatJs, jsParseFloat,
      show parseDecimal "100.50" = some (false, ['1','0','0'], ['5','0'], 0) from by decide]
    norm_num [Option.map_some', ratOfDecimal, show digitsVal ['1','0','0'] = 100 from by decide,
      show digitsVal ['5','0'] = 50 from by decide]
  have h₂ : parsedOrZero (c8row₂.get "customer_behavior.total_revenue") = 801/4 := by
    rw [show c8row₂.get "customer_behavior.total_revenue" = .str "200.25" from by decide]
    rw [parsedOrZero, parseFloatJs, jsParseFloat,
      show parseDecimal "200.25" = some (false, ['2','0','0'], ['2','5'], 0) from by decide]
    norm_num [Option.map_some', ratOfDecimal, show digitsVal ['2','0','0'] = 200 from by decide,
      show digitsVal ['2','5'] = 25 from by decide]
  have h₃ : parsedOrZero (c8row₃.get "customer_behavior.total_revenue") = 50 := by
    rw [show c8row₃.get "customer_behavior.total_revenue" = .str "50.00" from by decide]
    rw [parsedOrZero, parseFloatJs, jsParseFloat,
      show parseDecimal "50.00" = some (false, ['5','0'], ['0','0'], 0) from by decide]
    norm_num [Option.map_some', ratOfDecimal, show digitsVal ['5','0'] = 50 from by decide,
      show digitsVal ['0','0'] = 0 from by decide]
  have s₁ : regionStep [] c8row₁ = [("AMERICA", (201 : ℚ)/2)] := by
    rw [regionStep, show rowRegionKey c8row₁ = "AMERICA" from by decide,
      show rowRevenueAmount c8row₁ = 201/2 from h₁]
    simp [getVal?]
  have s₂ : regionStep [("AMERICA", (201 : ℚ)/2)] c8row₂ =
      [("AMERICA", (201 : ℚ)/2), ("EUROPE", (801 : ℚ)/4)] := by
    rw [regionStep, show rowRegionKey c8row₂ = "EUROPE" from by decide,
      show rowRevenueAmount c8row₂ = 801/4 from h₂]
    simp [getVal?]
  have s₃ : regionStep [("AMERICA", (201 : ℚ)/2), ("EUROPE", (801 : ℚ)/4)] c8row₃ =
      [("AMERICA", (301 : ℚ)/2), ("EUROPE", (801 : ℚ)/4)] := by
    rw [regionStep, show rowRegionKey c8row₃ = "AMERICA" from by decide,
      show rowRevenueAmount c8row₃ = 50 from h₃]
    norm_num [getVal?, setVal, List.find?]
    decide
  rw [processSalesByRegionData]
  simp only [c8resp, List.isEmpty_cons, Bool.false_eq_true, if_false,
    List.foldl_cons, List.foldl_nil, s₁, s₂, s₃]
  simp

/-- C4: every failing remote call surfaces as a thrown error (a `query`
result is a success only when the network call was fulfilled — nothing is
swallowed); the `catch` block maps an HTTP 401 to the
authentication-failed error (`Unauthenticated`), a 403 to the
access-denied error (`Forbidden`), a 400 to the bad-request error
(`MalformedRequest`), a 500 to the server error (`RemoteFault`), and a
rejection with no HTTP response at all — a network timeout — to the
API-error catch-all (`TransportFailure`); and the six client-generated
error conditions are caller-distinguishable, their messages being
pairwise distinct. -/
theorem C4_error_taxonomy :
    (∀ (cfg : CubeApiConfig) (net : CubeQuery → AxiosOutcome) (q : CubeQuery)
      (r : CubeQueryResponse),
      (CubeApiService.query cfg net q).result = .ok r → net q = .success r) ∧
    (∀ e : AxiosFailure, e.response.map (fun r => r.status) = some 401 →
      classifyAxiosError e = .authenticationFailed) ∧
    (∀ e : AxiosFailure, e.response.map (fun r => r.status) = some 403 →
      classifyAxiosError e = .accessDenied) ∧
    (∀ e : AxiosFailure, e.response.map (fun r => r.status) = some 400 →
      classifyAxiosError e = .badRequest (bodyDetails e)) ∧
    (∀ e : AxiosFailure, e.response.map (fun r => r.status) = some 500 →
      classifyAxiosError e = .serverError (bodyDetails e)) ∧
    (∀ e : AxiosFailure, e.response = none →
      classifyAxiosError e = .apiError e.message) ∧
    (∀ e₁ e₂ : ThrownError, e₁.tag ≠ e₂.tag → e₁.tag ≠ 6 → e₂.tag ≠ 6 →
      e₁.message ≠ e₂.message) := by
  refine ⟨?_, ?_, ?_, ?_, ?_, ?_, ?_⟩
  · intro cfg net q r h
    rw [CubeApiService.query] at h
    by_cases hc : isConfigured cfg
    · rw [if_pos hc] at h
      cases hnet : net q <;> rw [hnet] at h <;> simp at h
      rw [h]
    · rw [if_neg hc] at h
      simp at h
  · intro e h
    simp [classifyAxiosError, h]
  · intro e h
    simp [classifyAxiosError, h]
  · intro e h
    simp [classifyAxiosError, h]
  · intro e h
    simp [classifyAxiosError, h]
  · intro e h
    simp [classifyAxiosError, h, jsOrStr]
  · intro e₁ e₂ h₁ h₂ h₃
    cases e₁ <;> cases e₂ <;>
      first
      | exact absurd rfl h₁
      | exact absurd rfl h₂
      | exact absurd rfl h₃
      | (apply ne_of_take2_ne
         simp only [ThrownError.message, take2_badRequest, take2_serverError, take2_apiError]
         decide)

/-- C4 witness: the taxonomy mapping at concrete failures — a fulfilled
call, a 401, a 403, a 400, a 500, a timeout, and the distinguishability
of the 401 error from the timeout error. -/
theorem C4_error_taxonomy_witness :
    (fun _ : CubeQuery => AxiosOutcome.success emptyResp) {} = .success emptyResp ∧
    classifyAxiosError fail401 = .authenticationFailed ∧
    classifyAxiosError fail403 = .accessDenied ∧
    classifyAxiosError fail400 = .badRequest (bodyDetails fail400) ∧
    classifyAxiosError fail500 = .serverError (bodyDetails fail500) ∧
    classifyAxiosError timeoutFailure = .apiError timeoutFailure.message ∧
    (ThrownError.authenticationFailed).message ≠
      (ThrownError.apiError "timeout of 10000ms exceeded").message :=
  ⟨C4_error_taxonomy.1 validCfg (fun _ => .success emptyResp) {} emptyResp rfl,
   C4_error_taxonomy.2.1 fail401 rfl,
   C4_error_taxonomy.2.2.1 fail403 rfl,
   C4_error_taxonomy.2.2.2.1 fail400 rfl,
   C4_error_taxonomy.2.2.2.2.1 fail500 rfl,
   C4_error_taxonomy.2.2.2.2.2.1 timeoutFailure rfl,
   C4_error_taxonomy.2.2.2.2.2.2 .authenticationFailed (.apiError "timeout of 10000ms exceeded")
     (by decide) (by decide) (by decide)⟩

/-- C5: with the client not configured, `query` fails immediately with
the not-configured error (the `Unauthenticated`-class credential-absence
condition) and the network call is never reached. -/
theorem C5_not_configured_fails_fast (cfg : CubeApiConfig) (net : CubeQuery → AxiosOutcome)
    (q : CubeQuery) (h : isConfigured cfg = false) :
    CubeApiService.query cfg net q =
      { result := .error .notConfigured, networkAttempted := false } := by
  rw [CubeApiService.query, h]
  simp

/-- C5 witness: a placeholder endpoint is not configured; the call fails
fast without a network attempt. -/
theorem C5_not_configured_fails_fast_witness :
    CubeApiService.query { apiUrl := "YOUR_CUBE_ENDPOINT_HERE", token := "sometoken" }
        (fun _ => .otherFail "network unreachable") {} =
      { result := .error .notConfigured, networkAttempted := false } :=
  C5_not_configured_fails_fast _ _ {} rfl

/-- C10: `isConfigured` holds exactly when both the endpoint URL and the
token are non-empty and differ from their literal placeholder defaults;
`query` produces the not-configured error exactly when that predicate is
false; in particular a left-in-place placeholder token is rejected
before any network call. -/
theorem C10_configured_predicate :
    (∀ cfg : CubeApiConfig, isConfigured cfg = true ↔
      (cfg.apiUrl ≠ "YOUR_CUBE_ENDPOINT_HERE" ∧ cfg.token ≠ "YOUR_BEARER_TOKEN_HERE" ∧
        cfg.apiUrl ≠ "" ∧ cfg.token ≠ "")) ∧
    (∀ (cfg : CubeApiConfig) (net : CubeQuery → AxiosOutcome) (q : CubeQuery),
      (CubeApiService.query cfg net q).result = .error .notConfigured ↔
        isConfigured cfg = false) ∧
    (∀ (net : CubeQuery → AxiosOutcome) (q : CubeQuery),
      CubeApiService.query placeholderCfg net q =
        { result := .error .notConfigured, networkAttempted := false }) := by
  refine ⟨?_, ?_, ?_⟩
  · intro cfg
    simp only [isConfigured, Bool.and_eq_true, decide_eq_true_eq, gt_iff_lt,
      string_length_pos_iff]
    tauto
  · intro cfg net q
    constructor
    · intro h
      by_contra hc
      rw [Bool.not_eq_false] at hc
      rw [CubeApiService.query, if_pos hc] at h
      cases hnet : net q <;> rw [hnet] at h <;> simp at h
      · exact classifyAxiosError_ne_notConfigured _ h
    · intro h
      rw [CubeApiService.query, h]
      simp
  · intro net q
    rfl

/-- C9: when two successive selection states compute deeply-equal
canonical filter lists, the second run of `updateFilters` emits no
`onFiltersChange` notification (so no second refresh cycle starts): the
ref holds the `JSON.stringify` of the previously computed list, and equal
lists stringify equally. -/
theorem C9_no_redundant_refresh (sel₁ sel₂ : FilterSelection) (st : FilterBarState)
    (h : canonicalFilters sel₂ = canonicalFilters sel₁) :
    (updateFilters sel₂ (updateFilters sel₁ st).1).2 = none := by
  have hpre : (updateFilters sel₁ st).1.prevFiltersRef =
      stringifyFilters (canonicalFilters sel₁) := by
    rw [updateFilters]
    split
    · rfl
    · next hcond => exact (not_ne_iff.mp hcond).symm
  rw [updateFilters, hpre, h]
  simp

/-- C9 witness: repeating the same region selection emits nothing the
second time. -/
theorem C9_no_redundant_refresh_witness :
    (updateFilters { selectedRegions := ["ASIA"], selectedSegments := [] }
      (updateFilters { selectedRegions := ["ASIA"], selectedSegments := [] }
        { prevFiltersRef := "" }).1).2 = none :=
  C9_no_redundant_refresh _ _ { prevFiltersRef := "" } rfl

/-- C1 counterexample: from a settled dashboard, change A is issued and
its cycle goes in flight; change B arrives before A's fetches resolve.
Contrary to the claim, B's refresh cycle is skipped by the `loadingRef`
guard (the in-flight cycle is still A's, and no fetch for B is ever
issued), and when A's fetches resolve their results ARE applied — so A's
results, not B's, end up in the chart state even though B's selection is
current. -/
theorem C1_counterexample :
    (settleFetches (fun _ => "") (handleFiltersChange true loadingStateA filtersB)
        okBatch).appliedFrom = some filtersA ∧
    filtersA ≠ filtersB ∧
    (handleFiltersChange true loadingStateA filtersB).inFlight = some filtersA ∧
    (handleFiltersChange true loadingStateA filtersB).filters = filtersB :=
  ⟨rfl, by decide, rfl, rfl⟩

/-- C1 amended: a filter change arriving while a cycle is in flight does
not supersede it — the new load is skipped entirely by the `loadingRef`
guard (only the `filters` state is updated), and when the in-flight
cycle's fetches resolve, their results are applied unconditionally (the
code performs no staleness comparison), tagged by the selection that
issued them. -/
theorem C1_amended_inflight_guard :
    (∀ (configured : Bool) (s : DashboardState) (f : List CubeFilter),
      s.loadingRef = true → handleFiltersChange configured s f = { s with filters := f }) ∧
    (∀ (fmt : JsValue → String) (s : DashboardState) (b : FetchBatch) (t : List CubeFilter)
      (rs : CubeQueryResponse × CubeQueryResponse × CubeQueryResponse × CubeQueryResponse ×
        CubeQueryResponse × CubeQueryResponse),
      s.inFlight = some t → promiseAll b = .ok rs →
      (settleFetches fmt s b).appliedFrom = some t ∧ (settleFetches fmt s b).inFlight = none) := by
  constructor
  · intro configured s f h
    rw [handleFiltersChange, loadDashboardData]
    simp [h]
  · intro fmt s b t rs h₁ h₂
    obtain ⟨r₁, r₂, r₃, r₄, r₅, r₆⟩ := rs
    rw [settleFetches, h₁, h₂]
    exact ⟨rfl, rfl⟩

/-- C1 amended witness: the guard and the unconditional application at
the concrete mid-flight state. -/
theorem C1_amended_inflight_guard_witness :
    handleFiltersChange true loadingStateA filtersB = { loadingStateA with filters := filtersB } ∧
    ((settleFetches (fun _ => "") loadingStateA okBatch).appliedFrom = some filtersA ∧
      (settleFetches (fun _ => "") loadingStateA okBatch).inFlight = none) :=
  ⟨C1_amended_inflight_guard.1 true loadingStateA filtersB rfl,
   C1_amended_inflight_guard.2 (fun _ => "") loadingStateA okBatch filtersA
     (emptyResp, emptyResp, emptyResp, emptyResp, emptyResp, emptyResp) rfl rfl⟩

/-- C2 counterexample: a cycle settles with the top-brands fetch failed
and all five sibling fetches fulfilled. Contrary to the claim, none of
the sibling widgets' results are applied (all chart states stay empty),
and the failure is stored in the dashboard-wide `error` state, which
renders the full-page error screen in place of every widget. -/
theorem C2_counterexample :
    (settleFetches (fun _ => "") loadingStateA failBatch).salesOverTime = none ∧
    (settleFetches (fun _ => "") loadingStateA failBatch).salesByRegion = none ∧
    (settleFetches (fun _ => "") loadingStateA failBatch).customerSegments = none ∧
    (settleFetches (fun _ => "") loadingStateA failBatch).orderSizeDistribution = none ∧
    (settleFetches (fun _ => "") loadingStateA failBatch).orderStatus = none ∧
    (settleFetches (fun _ => "") loadingStateA failBatch).error =
      some "Server Error: upstream query failure" ∧
    rendersErrorScreen (settleFetches (fun _ => "") loadingStateA failBatch) = true :=
  ⟨rfl, rfl, rfl, rfl, rfl, rfl, rfl⟩

/-- C2 amended: one failed widget fetch fails the whole `Promise.all`
cycle: no widget state is updated at all, the rejection message is stored
in the dashboard-wide `error` state (rendering the full-page error screen
instead of the widgets), and the `finally` clause clears the loading
flags, so the coordinator does leave the loading state. -/
theorem C2_amended_global_failure (fmt : JsValue → String) (s : DashboardState)
    (b : FetchBatch) (t : List CubeFilter) (msg : String)
    (h₁ : s.inFlight = some t) (h₂ : promiseAll b = .error msg) :
    settleFetches fmt s b =
      { s with loadingRef := false, loading := false, inFlight := none, error := some msg } := by
  rw [settleFetches, h₁, h₂]

/-- C2 amended witness: the global-failure settlement at the concrete
mid-flight state. -/
theorem C2_amended_global_failure_witness :
    settleFetches (fun _ => "") loadingStateA failBatch =
      { loadingStateA with loadingRef := false, loading := false, inFlight := none, error := some "Server Error: upstream query failure" } :=
  C2_amended_global_failure (fun _ => "") loadingStateA failBatch filtersA
    "Server Error: upstream query failure" rfl rfl

end CubeWorkshop
